import Mathlib

/- Shallow embedding of the Pilih Kontraktor lead engine
   (src/backend/main.py, src/backend/schemas.py, src/backend/database.py).

   Modelling conventions:
   * datetimes are integers (minutes since an arbitrary epoch); the
     timedeltas of the source (15 minutes, 24 hours) become 15 and 1440;
   * the Mongo document store becomes an explicit `DB` state record with
     the two collections used by the core ("lead" and "lead_log") as lists
     in insertion order, plus a counter that generates fresh `_id`s;
   * outbound WhatsApp sends are pure values (`Notification`); the Google
     Sheets mirror is a fire-and-forget side effect whose failures are
     swallowed (it never touches the store), so it is not part of the state;
   * Python truthiness of optional strings (`None` and `""` are falsy) is
     modelled explicitly by `truthyStr` / `pyOrStr` / `pyOrOpt`;
   * pydantic validation of `LeadLog` (whose `to_status` / `from_status`
     are the four-value `Status` literal) is modelled by `mkLeadLog`
     returning `none` when construction would raise a `ValidationError`. -/

namespace LeadEngine

/-- Configuration read from the environment at startup (main.py top level):
`DEFAULT_ASSIGNED_WHATSAPP` (may be unset) and `DEFAULT_ADMIN_WHATSAPP`
(falls back to "+60123456789").  Note `os.getenv("DEFAULT_ADMIN_WHATSAPP",
DEFAULT_ADMIN)` in `normalize_lead` always equals `DEFAULT_ADMIN`, so a
single field suffices. -/
structure Config where
  defaultAssigned : Option String
  defaultAdmin : String
  deriving DecidableEq

/-- A stored document of the "lead" collection (schemas.py `Lead` plus the
Mongo `_id` and the `created_at`/`updated_at` stamps added by database.py). -/
structure Lead where
  _id : String
  name : String
  phone : String
  area : Option String
  job_category : Option String
  description : Option String
  source : String
  timestamp : Int
  status : String
  assigned_sales_whatsapp : Option String
  last_sales_reply_at : Option Int
  created_at : Int
  updated_at : Int
  deriving DecidableEq

/-- A stored document of the "lead_log" collection (schemas.py `LeadLog`
plus the `created_at`/`updated_at` stamps added by database.py). -/
structure LeadLog where
  lead_id : String
  from_status : Option String
  to_status : String
  timestamp : Int
  note : Option String
  created_at : Int
  updated_at : Int
  deriving DecidableEq

/-- The document store: the two collections used by the core, in insertion
order, and a counter from which fresh `_id`s are drawn. -/
structure DB where
  leads : List Lead
  lead_logs : List LeadLog
  nextId : Nat
  deriving DecidableEq

/-- An outbound WhatsApp text (`send_whatsapp_message` is fire-and-forget;
we record the recipient and the body). -/
structure Notification where
  to_number : String
  text : String
  deriving DecidableEq

/-- Python truthiness of an optional string: `None` and `""` are falsy. -/
def truthyStr : Option String → Bool
  | none => false
  | some s => !(s == "")

/-- Python `a or b` for an optional string `a` and a string `b`. -/
def pyOrStr (a : Option String) (b : String) : String :=
  match a with
  | some s => if s == "" then b else s
  | none => b

/-- Python `a or b` for two optional strings. -/
def pyOrOpt (a b : Option String) : Option String :=
  if truthyStr a then a else b

/-- `send_whatsapp_message(to_number, message)` from main.py: a falsy
recipient is replaced by `DEFAULT_ADMIN`; the send itself is logged and
best-effort (failures swallowed), so the model just records the message. -/
def send_whatsapp_message (cfg : Config) (to_number : Option String) (message : String) : Notification :=
  { to_number := pyOrStr to_number cfg.defaultAdmin, text := message }

/-- The fixed keyword list `KEYWORDS` from main.py. -/
def KEYWORDS : List String :=
  ["paip", "wiring", "renovate", "leaking", "kontraktor",
   "plumber", "electrical", "bumbung"]

/-- Does the pattern match at the head of the text?  (Helper for Python's
substring containment `k in text`.) -/
def matchesAt : List Char → List Char → Bool
  | [], _ => true
  | _ :: _, [] => false
  | k :: ks, t :: ts => k == t && matchesAt ks ts

/-- Python `k in text` on strings: contiguous-substring containment, with
the empty pattern contained in everything. -/
def containsSub : List Char → List Char → Bool
  | [], k => k.isEmpty
  | t :: ts, k => matchesAt k (t :: ts) || containsSub ts k

/-- Python `s.lower()` (ASCII case folding, as in `Char.toLower`; all
configured keywords are ASCII). -/
def lowerData (s : String) : List Char :=
  s.data.map Char.toLower

/-- `any(k in text for k in KEYWORDS)` from `ingest_whatsapp`. -/
def hasKeyword (text : List Char) : Bool :=
  KEYWORDS.any (fun k => containsSub text k.data)

/-- The loosely structured dict handed to `normalize_lead`.  A field that is
`none` is either absent from the dict or present as Python `None`: the two
are indistinguishable to `normalize_lead`'s `data.get` accesses, except for
`source`, which every caller in main.py supplies explicitly. -/
structure RawLead where
  name : Option String := none
  phone : Option String := none
  area : Option String := none
  job_category : Option String := none
  description : Option String := none
  source : Option String := none
  timestamp : Option Int := none
  assigned_sales_whatsapp : Option String := none
  deriving DecidableEq

/-- The canonical lead-creation payload produced by `normalize_lead`. -/
structure NormLead where
  name : String
  phone : String
  area : Option String
  job_category : Option String
  description : Option String
  source : String
  timestamp : Int
  status : String
  assigned_sales_whatsapp : String
  last_sales_reply_at : Option Int
  deriving DecidableEq

/-- `normalize_lead(data)` from main.py.  `now` is `now_tz()`. -/
def normalize_lead (cfg : Config) (data : RawLead) (now : Int) : NormLead :=
  let ts : Int := data.timestamp.getD now
  let assigned : Option String := pyOrOpt data.assigned_sales_whatsapp cfg.defaultAssigned
  { name := pyOrStr data.name "Unknown"
    phone := pyOrStr data.phone ""
    area := data.area
    job_category := data.job_category
    description := data.description
    source := data.source.getD "manual"
    timestamp := ts
    status := "New"
    assigned_sales_whatsapp := pyOrStr assigned cfg.defaultAdmin
    last_sales_reply_at := none }

/-- `_save_and_sheet` from main.py: `create_document("lead", data)` inserts
the payload with fresh `_id` and `created_at`/`updated_at` stamps
(database.py), refetches it by `_id`, then mirrors it to the Google Sheet
(best-effort, outside the store).  Returns the new store and the stored
lead document. -/
def _save_and_sheet (db : DB) (d : NormLead) (now : Int) : DB × Lead :=
  let lead : Lead :=
    { _id := toString db.nextId
      name := d.name
      phone := d.phone
      area := d.area
      job_category := d.job_category
      description := d.description
      source := d.source
      timestamp := d.timestamp
      status := d.status
      assigned_sales_whatsapp := some d.assigned_sales_whatsapp
      last_sales_reply_at := d.last_sales_reply_at
      created_at := now
      updated_at := now }
  ({ db with leads := db.leads ++ [lead], nextId := db.nextId + 1 }, lead)

/-- `update_document` from database.py specialised to the "lead"
collection: `update_many` with a `$set` patch which always also sets
`updated_at := now`.  The call-site filter and patch are passed as
functions over the document. -/
def update_document (db : DB) (flt : Lead → Bool) (patch : Lead → Lead) (now : Int) : DB :=
  { db with
      leads := db.leads.map (fun l =>
        if flt l then
          let p := patch l
          { p with updated_at := now }
        else l) }

/-- Membership in the `Status` literal of schemas.py. -/
def validStatus (s : String) : Bool :=
  s == "New" || s == "In progress" || s == "Won" || s == "Lost"

/-- pydantic validation of the optional `from_status : Optional[Status]`. -/
def validOptStatus : Option String → Bool
  | none => true
  | some s => validStatus s

/-- Construction of a `LeadLog` document (schemas.py): pydantic rejects a
`to_status` (or a non-`None` `from_status`) outside the `Status` literal by
raising `ValidationError`, modelled as `none`.  On success database.py's
`create_document` adds the `created_at`/`updated_at` stamps. -/
def mkLeadLog (lead_id : String) (from_status : Option String) (to_status : String)
    (ts : Int) (note : Option String) (now : Int) : Option LeadLog :=
  if validOptStatus from_status && validStatus to_status then
    some { lead_id := lead_id, from_status := from_status, to_status := to_status,
           timestamp := ts, note := note, created_at := now, updated_at := now }
  else none

/-- `_log_status_change` from main.py: build the `LeadLog` (pydantic may
raise, modelled as `none`), persist it to "lead_log", and mirror it to the
log sheet (best-effort, outside the store). -/
def _log_status_change (db : DB) (lead_id : String) (from_status : Option String)
    (to_status : String) (note : Option String) (now : Int) : Option DB :=
  (mkLeadLog lead_id from_status to_status now note now).map
    (fun log => { db with lead_logs := db.lead_logs ++ [log] })

/-- The error outcomes of `update_status`: the explicit 404 for a missing
lead, and the pydantic `ValidationError` escaping from
`_log_status_change`. -/
inductive UpdateErr
  | notFound
  | validationError
  deriving DecidableEq

/-- `update_status` (POST /lead/status) from main.py:
1. `get_document("lead", {"_id": lead_id})`; 404 if absent;
2. read the current status;
3. `update_document` setting the new status (and `updated_at`);
4. `_log_status_change(lead_id, prev, new_status, note)`.
A `ValidationError` in step 4 propagates after step 3 already committed. -/
def update_status (db : DB) (lead_id new_status : String) (note : Option String)
    (now : Int) : DB × Option UpdateErr :=
  match db.leads.find? (fun l => l._id == lead_id) with
  | none => (db, some UpdateErr.notFound)
  | some lead =>
    let prev := lead.status
    let db1 := update_document db (fun l => l._id == lead_id)
      (fun l => { l with status := new_status }) now
    match _log_status_change db1 lead_id (some prev) new_status note now with
    | some db2 => (db2, none)
    | none => (db1, some UpdateErr.validationError)

/-- `ingest_whatsapp` (POST /ingest/whatsapp) from main.py.  Returns the
new store, the created lead if the keyword filter classified the message
as a new enquiry (`none` on the reply path), and the outbound sends. -/
structure WhatsAppMessageIn where
  from_number : String
  to_number : String
  message : String
  timestamp : Int
  deriving DecidableEq

def ingest_whatsapp (cfg : Config) (db : DB) (msg : WhatsAppMessageIn) (now : Int) :
    DB × Option Lead × List Notification :=
  let text := lowerData msg.message
  if !(hasKeyword text) then
    let db1 := update_document db
      (fun l => l.assigned_sales_whatsapp == some msg.from_number)
      (fun l => { l with last_sales_reply_at := some msg.timestamp, status := "In progress" })
      now
    (db1, none, [])
  else
    let data := normalize_lead cfg
      { name := none, phone := some msg.from_number, area := none, job_category := none,
        description := some msg.message, source := some "whatsapp",
        timestamp := some msg.timestamp, assigned_sales_whatsapp := some msg.to_number }
      now
    let r := _save_and_sheet db data now
    (r.1, some r.2,
      [send_whatsapp_message cfg r.2.assigned_sales_whatsapp
        ("New WhatsApp lead: " ++ r.2.phone ++ " → '" ++ msg.message.take 80 ++ "'")])

/-- The inbound webhook payload (schemas.py `WebhookIn`); every field
optional, `model_dump(exclude_none=True)` drops the `none`s. -/
structure WebhookIn where
  name : Option String := none
  phone : Option String := none
  area : Option String := none
  job_category : Option String := none
  description : Option String := none
  source : Option String := none
  assigned_sales_whatsapp : Option String := none
  deriving DecidableEq

/-- `{**payload.model_dump(exclude_none=True), "source": src}`: the channel
tag written after the spread always wins over any payload `source`. -/
def webhookRaw (p : WebhookIn) (src : String) : RawLead :=
  { name := p.name, phone := p.phone, area := p.area, job_category := p.job_category,
    description := p.description, source := some src, timestamp := none,
    assigned_sales_whatsapp := p.assigned_sales_whatsapp }

/-- `ingest_webhook` (POST /ingest/webhook) from main.py. -/
def ingest_webhook (cfg : Config) (db : DB) (p : WebhookIn) (now : Int) :
    DB × Lead × Notification :=
  let data := normalize_lead cfg (webhookRaw p "website") now
  let r := _save_and_sheet db data now
  (r.1, r.2,
    send_whatsapp_message cfg r.2.assigned_sales_whatsapp
      ("New lead from website: " ++ r.2.name ++ " (" ++ r.2.phone ++ "). Status: New"))

/-- `ingest_facebook` (POST /ingest/facebook) from main.py. -/
def ingest_facebook (cfg : Config) (db : DB) (p : WebhookIn) (now : Int) :
    DB × Lead × Notification :=
  let data := normalize_lead cfg (webhookRaw p "facebook") now
  let r := _save_and_sheet db data now
  (r.1, r.2,
    send_whatsapp_message cfg r.2.assigned_sales_whatsapp
      ("New Facebook lead: " ++ r.2.name ++ " (" ++ r.2.phone ++ "). Status: New"))

/-- `timedelta(minutes=15)` in minutes. -/
def DELTA15 : Int := 15

/-- `timedelta(hours=24)` in minutes. -/
def DAY_MIN : Int := 1440

/-- `lead.get('name') or lead.get('phone')` in the reminder texts. -/
def display_name (l : Lead) : String :=
  if l.name == "" then l.phone else l.name

/-- The 15-minute reminder send of `follow_up_checks`. -/
def reminder15 (cfg : Config) (l : Lead) : Notification :=
  send_whatsapp_message cfg
    (some (pyOrStr l.assigned_sales_whatsapp cfg.defaultAdmin))
    ("Reminder: Lead " ++ display_name l ++ " has no reply after 15 min.")

/-- The fixed note of the 24-hour informational log entry. -/
def followup24_note : String :=
  "Auto follow-up task created after 24h of no response"

/-- The informational New→New audit entry appended by the 24-hour branch
of `follow_up_checks` for one lead. -/
def followup24_log (l : Lead) (now : Int) : LeadLog :=
  { lead_id := l._id, from_status := some "New", to_status := "New",
    timestamp := now, note := some followup24_note, created_at := now, updated_at := now }

/-- The 24-hour follow-up send of `follow_up_checks`. -/
def notify24 (cfg : Config) (l : Lead) : Notification :=
  send_whatsapp_message cfg
    (some (pyOrStr l.assigned_sales_whatsapp cfg.defaultAdmin))
    ("Follow-up task: Lead " ++ display_name l ++ " still New after 24h.")

/-- The second loop of `follow_up_checks`: for each stale lead, one
`_log_status_change(id, "New", "New", fixed note)` (whose fixed New→New
entry always passes validation, so the `none` fallback is unreachable)
followed by one send. -/
def follow_up_loop24 (cfg : Config) (now : Int) : DB → List Lead → DB × List Notification
  | db, [] => (db, [])
  | db, l :: rest =>
    let db1 := (_log_status_change db l._id (some "New") "New" (some followup24_note) now).getD db
    let r := follow_up_loop24 cfg now db1 rest
    (r.1, notify24 cfg l :: r.2)

/-- `follow_up_checks` from main.py: fetch up to 5000 leads with status
"New"; first loop sends the 15-minute reminder to every fetched lead whose
`timestamp <= now - 15min` and whose `last_sales_reply_at` is falsy; second
loop, for every fetched lead with `timestamp <= now - 24h` still "New",
appends the informational log entry and sends the follow-up task text. -/
def follow_up_checks (cfg : Config) (db : DB) (now : Int) : DB × List Notification :=
  let leads := (db.leads.filter (fun l => l.status == "New")).take 5000
  let notes15 := (leads.filter (fun l =>
      decide (l.timestamp ≤ now - DELTA15) && l.last_sales_reply_at.isNone)).map
    (reminder15 cfg)
  let stale := leads.filter (fun l =>
      decide (l.timestamp ≤ now - DAY_MIN) && l.status == "New")
  let r := follow_up_loop24 cfg now db stale
  (r.1, notes15 ++ r.2)

/-- Python dict counter update `d[k] = d.get(k, 0) + 1` on an
insertion-ordered association list. -/
def dictIncr (d : List (String × Nat)) (k : String) : List (String × Nat) :=
  if d.any (fun p => p.1 == k) then
    d.map (fun p => if p.1 == k then (p.1, p.2 + 1) else p)
  else d ++ [(k, 1)]

/-- Python dict read `d[k]` for a key known to be present (0 if absent). -/
def dictGet (d : List (String × Nat)) (k : String) : Nat :=
  match d.find? (fun p => p.1 == k) with
  | some p => p.2
  | none => 0

/-- Python `str.title()` (ASCII): an alphabetic character is uppercased
after a non-alphabetic boundary and lowercased otherwise. -/
def pyTitleAux : Bool → List Char → List Char
  | _, [] => []
  | prevAlpha, c :: cs =>
    (if c.isAlpha then (if prevAlpha then c.toLower else c.toUpper) else c)
      :: pyTitleAux c.isAlpha cs

def pyTitle (s : String) : String :=
  ⟨pyTitleAux false s.data⟩

/-- Lexicographic (code-point) order on character lists: Python's string
comparison used by `sorted` on the dict items. -/
def lexLe : List Char → List Char → Bool
  | [], _ => true
  | _ :: _, [] => false
  | a :: as, b :: bs => if a = b then lexLe as bs else decide (a < b)

/-- Key order on dict items: Python `sorted(d.items())` compares the
(distinct) keys first. -/
def itemLe (p q : String × Nat) : Bool :=
  lexLe p.1.data q.1.data

/-- Key-ordered insertion (helper of `sortedItems`). -/
def insertItem (x : String × Nat) : List (String × Nat) → List (String × Nat)
  | [] => [x]
  | y :: ys => if itemLe x y then x :: y :: ys else y :: insertItem x ys

/-- Python `sorted(d.items())`: a sort of the items by key (the keys of a
dict are distinct, so any sorting algorithm yields the same list; an
insertion sort keeps the model executable). -/
def sortedItems : List (String × Nat) → List (String × Nat)
  | [] => []
  | x :: xs => insertItem x (sortedItems xs)

/-- The `by_status` dict of `daily_summary_job`: seeded with the four fixed
buckets at 0, then bumped per lead. -/
def by_status_of (leads : List Lead) : List (String × Nat) :=
  leads.foldl (fun d l => dictIncr d l.status)
    [("New", 0), ("In progress", 0), ("Won", 0), ("Lost", 0)]

/-- The `by_area` dict: key `(l.get("area") or "Unknown").title()`. -/
def by_area_of (leads : List Lead) : List (String × Nat) :=
  leads.foldl (fun d l => dictIncr d (pyTitle (pyOrStr l.area "Unknown"))) []

/-- The `by_job` dict: key `(l.get("job_category") or "Unknown").title()`. -/
def by_job_of (leads : List Lead) : List (String × Nat) :=
  leads.foldl (fun d l => dictIncr d (pyTitle (pyOrStr l.job_category "Unknown"))) []

/-- `", ".join(f"{k}: {v}" for k, v in sorted(d.items()))`. -/
def itemsLine (d : List (String × Nat)) : String :=
  String.intercalate ", " ((sortedItems d).map (fun p => p.1 ++ ": " ++ toString p.2))

/-- `daily_summary_job` from main.py: all leads (limit 10000), the four
status buckets, area/job counters (sorted lexicographically in the
report), the conversion count over "lead_log" documents with
`from_status="New", to_status="In progress"` (limit 100000), the overdue
count, and the fixed multi-line report sent to `DEFAULT_ADMIN`. -/
def daily_summary_job (cfg : Config) (db : DB) (now : Int) : Notification :=
  let leads := db.leads.take 10000
  let total := leads.length
  let bs := by_status_of leads
  let conversion := ((db.lead_logs.filter (fun g =>
      g.from_status == some "New" && g.to_status == "In progress")).take 100000).length
  let overdue := (leads.filter (fun l =>
      l.status == "New" && decide (l.timestamp ≤ now - DAY_MIN))).length
  let sNew := dictGet bs "New"
  let sProg := dictGet bs "In progress"
  let sWon := dictGet bs "Won"
  let sLost := dictGet bs "Lost"
  let lines : List String :=
    ["PK Daily Lead Summary",
     "Total leads: " ++ toString total,
     "Status → New: " ++ toString sNew ++ ", In progress: " ++ toString sProg ++
       ", Won: " ++ toString sWon ++ ", Lost: " ++ toString sLost,
     "By Area: " ++ itemsLine (by_area_of leads),
     "By Job: " ++ itemsLine (by_job_of leads),
     "Conversion New→In progress: " ++ toString conversion,
     "Overdue follow-ups (24h): " ++ toString overdue]
  send_whatsapp_message cfg (some cfg.defaultAdmin) (String.intercalate "\n" lines)

/- ------------------------------------------------------------------ -/
/- Statement helpers and concrete sample data for the theorems below   -/
/- ------------------------------------------------------------------ -/

/-- The lead document that the New-Lead branch of `ingest_whatsapp` stores
(for a non-empty recipient number): source "whatsapp" — the messaging
channel tag — phone the sender, description the message body, handler the
recipient address. -/
def expected_whatsapp_lead (db : DB) (msg : WhatsAppMessageIn) (now : Int) : Lead :=
  { _id := toString db.nextId, name := "Unknown", phone := msg.from_number, area := none,
    job_category := none, description := some msg.message, source := "whatsapp",
    timestamp := msg.timestamp, status := "New",
    assigned_sales_whatsapp := some msg.to_number, last_sales_reply_at := none,
    created_at := now, updated_at := now }

/-- The Boolean shape of the 24-hour informational entry for lead `l`:
a self-transition New→New with the fixed auto-follow-up note. -/
def auto24_entry (l : Lead) (g : LeadLog) : Bool :=
  g.lead_id == l._id && g.from_status == some "New" && g.to_status == "New" &&
    g.note == some followup24_note

/-- A shared sample configuration used by the concrete witnesses. -/
def cfgW : Config := { defaultAssigned := none, defaultAdmin := "+60123456789" }

/-- A shared sample lead used by the concrete witnesses. -/
def leadW : Lead :=
  { _id := "a", name := "Aminah", phone := "+60101", area := none, job_category := none,
    description := none, source := "manual", timestamp := 100, status := "New",
    assigned_sales_whatsapp := some "+60555", last_sales_reply_at := none,
    created_at := 100, updated_at := 100 }

/-- A shared sample store used by the concrete witnesses. -/
def dbW : DB := { leads := [leadW], lead_logs := [], nextId := 1 }

/-- A keyword-bearing sample message ("paip" occurs, case-insensitively). -/
def msgW : WhatsAppMessageIn :=
  { from_number := "+60222", to_number := "+60555", message := "Paip bocor kat dapur", timestamp := 50 }

/-- A keyword-free sample message from the sample lead's handler. -/
def msgW2 : WhatsAppMessageIn :=
  { from_number := "+60555", to_number := "+60999", message := "ok boss, will call", timestamp := 120 }

/-- Lead A of the summary scenario: status "New". -/
def leadA7 : Lead :=
  { _id := "A", name := "A", phone := "1", area := none, job_category := none,
    description := none, source := "manual", timestamp := 100, status := "New",
    assigned_sales_whatsapp := some "+60555", last_sales_reply_at := none,
    created_at := 100, updated_at := 100 }

/-- Lead B of the summary scenario: status "In progress". -/
def leadB7 : Lead := { leadA7 with _id := "B", name := "B", status := "In progress" }

/-- Lead C of the summary scenario: status "Won". -/
def leadC7 : Lead := { leadA7 with _id := "C", name := "C", status := "Won" }

/-- The summary-scenario snapshot: leads {A: New, B: In progress, C: Won}
and an empty log collection. -/
def db7 : DB := { leads := [leadA7, leadB7, leadC7], lead_logs := [], nextId := 3 }

end LeadEngine

namespace LeadEngine

/- ------------------------------------------------------------------ -/
/- Helper lemmas                                                       -/
/- ------------------------------------------------------------------ -/

/-- `find?` over a conditional patch that preserves the search predicate
returns the patched first hit. -/
theorem find?_map_ite {α : Type} (p : α → Bool) (g : α → α)
    (hg : ∀ x, p (g x) = p x) :
    ∀ l : List α, (l.map (fun x => if p x then g x else x)).find? p = (l.find? p).map g
  | [] => rfl
  | a :: t => by
    by_cases h : p a = true
    · simp [List.find?_cons, h, hg]
    · have h' : p a = false := by simpa using h
      simp [List.find?_cons, h', find?_map_ite p g hg t]

/- ------------------------------------------------------------------ -/
/- C1, C2, C9: the explicit status-update operation                    -/
/- ------------------------------------------------------------------ -/

/-- Claim C1: for every existing lead, `update_status(lead_id, new_status,
note)` appends exactly one LeadLog entry whose `from_status` is the lead's
status immediately before the update and whose `to_status` is the requested
status — including self-transitions, which the generality of `new_status`
covers (the witness exercises New→New).  As elsewhere in the state machine,
both the stored status and the requested one are values of the four-value
`Status` enumeration, which `LeadLog` validation requires. -/
theorem update_status_appends_one_log (db : DB) (lead_id new_status : String)
    (note : Option String) (now : Int) (lead : Lead)
    (hfind : db.leads.find? (fun l => l._id == lead_id) = some lead)
    (hprev : validStatus lead.status = true)
    (hnew : validStatus new_status = true) :
    (update_status db lead_id new_status note now).2 = none ∧
    (update_status db lead_id new_status note now).1.lead_logs =
      db.lead_logs ++
        [{ lead_id := lead_id, from_status := some lead.status, to_status := new_status,
           timestamp := now, note := note, created_at := now, updated_at := now }] := by
  unfold update_status
  rw [hfind]
  simp [update_document, _log_status_change, mkLeadLog, validOptStatus, hprev, hnew]

/-- Witness for C1 at a concrete store: a self-transition New→New of the
sample lead appends exactly the one matching log entry. -/
theorem update_status_appends_one_log_witness :
    dbW.leads.find? (fun l => l._id == "a") = some leadW ∧
    validStatus leadW.status = true ∧
    validStatus "New" = true ∧
    ((update_status dbW "a" "New" (some "ping") 7).2 = none ∧
     (update_status dbW "a" "New" (some "ping") 7).1.lead_logs =
       dbW.lead_logs ++
         [{ lead_id := "a", from_status := some leadW.status, to_status := "New",
            timestamp := 7, note := some "ping", created_at := 7, updated_at := 7 }]) :=
  ⟨by decide, by decide, by decide,
   update_status_appends_one_log dbW "a" "New" (some "ping") 7 leadW
     (by decide) (by decide) (by decide)⟩

/-- Claim C2: a status update on a lead id that resolves to no lead fails
with NotFound and leaves the entire store (leads and logs) unchanged. -/
theorem update_status_not_found (db : DB) (lead_id new_status : String)
    (note : Option String) (now : Int)
    (h : db.leads.find? (fun l => l._id == lead_id) = none) :
    update_status db lead_id new_status note now = (db, some UpdateErr.notFound) := by
  unfold update_status
  rw [h]

/-- Witness for C2 at a concrete store: id "zz" resolves to nothing. -/
theorem update_status_not_found_witness :
    dbW.leads.find? (fun l => l._id == "zz") = none ∧
    update_status dbW "zz" "Won" none 7 = (dbW, some UpdateErr.notFound) :=
  ⟨by decide, update_status_not_found dbW "zz" "Won" none 7 (by decide)⟩

/-- Claim C9: an update of an existing lead to a status outside the
enumeration first overwrites the stored status, then fails in `LeadLog`
validation: the caller gets an error, no log entry is appended, and the
status change is not rolled back. -/
theorem update_status_invalid_enum (db : DB) (lead_id new_status : String)
    (note : Option String) (now : Int) (lead : Lead)
    (hfind : db.leads.find? (fun l => l._id == lead_id) = some lead)
    (hnew : validStatus new_status = false) :
    (update_status db lead_id new_status note now).2 = some UpdateErr.validationError ∧
    (update_status db lead_id new_status note now).1.lead_logs = db.lead_logs ∧
    (update_status db lead_id new_status note now).1.leads.find? (fun l => l._id == lead_id) =
      some { lead with status := new_status, updated_at := now } := by
  have hmap := find?_map_ite (fun l : Lead => l._id == lead_id)
    (fun l => { l with status := new_status, updated_at := now })
    (fun _ => rfl) db.leads
  have h1 : _log_status_change
      (update_document db (fun l => l._id == lead_id)
        (fun l => { l with status := new_status }) now)
      lead_id (some lead.status) new_status note now = none := by
    simp [_log_status_change, mkLeadLog, hnew]
  unfold update_status
  rw [hfind]
  dsimp only
  rw [h1]
  refine ⟨rfl, rfl, ?_⟩
  dsimp only [update_document]
  rw [hmap, hfind]
  rfl

/-- Witness for C9 at a concrete store: updating the sample lead to
"Bogus" errors, appends nothing, and leaves status "Bogus" behind. -/
theorem update_status_invalid_enum_witness :
    dbW.leads.find? (fun l => l._id == "a") = some leadW ∧
    validStatus "Bogus" = false ∧
    ((update_status dbW "a" "Bogus" none 7).2 = some UpdateErr.validationError ∧
     (update_status dbW "a" "Bogus" none 7).1.lead_logs = dbW.lead_logs ∧
     (update_status dbW "a" "Bogus" none 7).1.leads.find? (fun l => l._id == "a") =
       some { leadW with status := "Bogus", updated_at := 7 }) :=
  ⟨by decide, by decide,
   update_status_invalid_enum dbW "a" "Bogus" none 7 leadW (by decide) (by decide)⟩

end LeadEngine

namespace LeadEngine

/- ------------------------------------------------------------------ -/
/- C10: channel tag overrides the payload source                       -/
/- ------------------------------------------------------------------ -/

/-- Claim C10: for every payload accepted by the website webhook the
stored lead's source is "website", and for every payload accepted by the
Facebook endpoint it is "facebook" — even when the payload supplies a
different `source` value, since the channel tag is written into the dict
after the payload spread and therefore always wins. -/
theorem ingest_channel_source_override (cfg : Config) (db : DB) (p : WebhookIn) (now : Int) :
    ((ingest_webhook cfg db p now).1.leads = db.leads ++ [(ingest_webhook cfg db p now).2.1] ∧
      (ingest_webhook cfg db p now).2.1.source = "website") ∧
    ((ingest_facebook cfg db p now).1.leads = db.leads ++ [(ingest_facebook cfg db p now).2.1] ∧
      (ingest_facebook cfg db p now).2.1.source = "facebook") :=
  ⟨⟨rfl, rfl⟩, ⟨rfl, rfl⟩⟩

/- ------------------------------------------------------------------ -/
/- C8: the Normalizer is total and applies the documented defaults     -/
/- ------------------------------------------------------------------ -/

/-- Claim C8 counterexample: with `name` supplied as the empty string the
Normalizer yields "Unknown", which is neither the supplied value nor the
absent case — Python's `or` treats the supplied `""` like a missing name. -/
theorem normalize_lead_empty_name_cex :
    ¬ ((normalize_lead cfgW { name := some "" } 0).name = "" ∨
       ({ name := some "" } : RawLead).name = none) := by
  decide

/-- Claim C8 (amended): the Normalizer is total by construction and, on
every input, yields name = the supplied value when that is non-empty and
"Unknown" when the name is absent or empty; phone = the supplied value or
"" when absent (never null); status always "New"; and
`last_sales_reply_at` always absent. -/
theorem normalize_lead_defaults (cfg : Config) (d : RawLead) (now : Int) :
    (∀ s, d.name = some s → s ≠ "" → (normalize_lead cfg d now).name = s) ∧
    ((d.name = none ∨ d.name = some "") → (normalize_lead cfg d now).name = "Unknown") ∧
    (normalize_lead cfg d now).phone = d.phone.getD "" ∧
    (normalize_lead cfg d now).status = "New" ∧
    (normalize_lead cfg d now).last_sales_reply_at = none := by
  refine ⟨?_, ?_, ?_, rfl, rfl⟩
  · intro s hs hne
    simp [normalize_lead, pyOrStr, hs, hne]
  · rintro (h | h) <;> simp [normalize_lead, pyOrStr, h]
  · match hp : d.phone with
    | none => simp [normalize_lead, pyOrStr, hp]
    | some s =>
      by_cases hse : s = "" <;> simp [normalize_lead, pyOrStr, hp, hse]

/-- Witness for C8 at concrete inputs: a supplied non-empty name is kept,
and the fully-empty record gets every default. -/
theorem normalize_lead_defaults_witness :
    (normalize_lead cfgW { name := some "Ali" } 3).name = "Ali" ∧
    (normalize_lead cfgW {} 3).name = "Unknown" ∧
    (normalize_lead cfgW {} 3).phone = ({} : RawLead).phone.getD "" ∧
    (normalize_lead cfgW {} 3).status = "New" ∧
    (normalize_lead cfgW {} 3).last_sales_reply_at = none :=
  ⟨(normalize_lead_defaults cfgW { name := some "Ali" } 3).1 "Ali" rfl (by decide),
   (normalize_lead_defaults cfgW {} 3).2.1 (Or.inl rfl),
   (normalize_lead_defaults cfgW {} 3).2.2.1,
   (normalize_lead_defaults cfgW {} 3).2.2.2.1,
   (normalize_lead_defaults cfgW {} 3).2.2.2.2⟩

end LeadEngine

namespace LeadEngine

/- ------------------------------------------------------------------ -/
/- C3, C4: messaging-channel classification and the reply path         -/
/- ------------------------------------------------------------------ -/

theorem pyOrStr_some_empty (s : String) : pyOrStr (some s) "" = s := by
  by_cases h : s = "" <;> simp [pyOrStr, h]

theorem pyOrStr_none (b : String) : pyOrStr none b = b := rfl

/-- Claim C3: an inbound WhatsApp message whose lowercased body contains
any configured keyword as a substring is classified New Lead, creating
exactly one lead with source "whatsapp" (the messaging channel), phone =
sender, description = body, assigned handler = the recipient address; a
body containing no keyword is classified Handler Reply and creates no
lead.  (The recipient address of a real channel message is non-empty;
an empty one would fall back to the configured defaults.) -/
theorem ingest_whatsapp_classification (cfg : Config) (db : DB) (msg : WhatsAppMessageIn)
    (now : Int) (hto : msg.to_number ≠ "") :
    (hasKeyword (lowerData msg.message) = true →
      (ingest_whatsapp cfg db msg now).2.1 = some (expected_whatsapp_lead db msg now) ∧
      (ingest_whatsapp cfg db msg now).1.leads = db.leads ++ [expected_whatsapp_lead db msg now]) ∧
    (hasKeyword (lowerData msg.message) = false →
      (ingest_whatsapp cfg db msg now).2.1 = none ∧
      (ingest_whatsapp cfg db msg now).1.leads.length = db.leads.length) := by
  constructor
  · intro hkw
    have hassigned : pyOrStr (pyOrOpt (some msg.to_number) cfg.defaultAssigned) cfg.defaultAdmin
        = msg.to_number := by
      simp [pyOrOpt, truthyStr, pyOrStr, hto]
    refine ⟨?_, ?_⟩ <;>
      simp [ingest_whatsapp, hkw, _save_and_sheet, normalize_lead, expected_whatsapp_lead,
        pyOrStr_some_empty, pyOrStr_none, hassigned]
  · intro hkw
    simp [ingest_whatsapp, hkw, update_document]

/-- Witness for C3: the keyword message creates exactly the expected lead;
the keyword-free one creates none. -/
theorem ingest_whatsapp_classification_witness :
    msgW.to_number ≠ "" ∧
    hasKeyword (lowerData msgW.message) = true ∧
    ((ingest_whatsapp cfgW dbW msgW 60).2.1 = some (expected_whatsapp_lead dbW msgW 60) ∧
     (ingest_whatsapp cfgW dbW msgW 60).1.leads = dbW.leads ++ [expected_whatsapp_lead dbW msgW 60]) ∧
    hasKeyword (lowerData msgW2.message) = false ∧
    ((ingest_whatsapp cfgW dbW msgW2 60).2.1 = none ∧
     (ingest_whatsapp cfgW dbW msgW2 60).1.leads.length = dbW.leads.length) :=
  ⟨by decide, by decide,
   (ingest_whatsapp_classification cfgW dbW msgW 60 (by decide)).1 (by decide),
   by decide,
   (ingest_whatsapp_classification cfgW dbW msgW2 60 (by decide)).2 (by decide)⟩

/-- Claim C4: on the Handler Reply outcome, every stored lead whose
`assigned_sales_whatsapp` equals the sender (any number of matches, any
status) gets `last_sales_reply_at` = the message timestamp and status
"In progress" (plus the store-maintained `updated_at`), with every other
field untouched; leads with a different handler are unchanged; no log
entry is appended and no lead is created. -/
theorem ingest_whatsapp_reply_frame (cfg : Config) (db : DB) (msg : WhatsAppMessageIn)
    (now : Int) (hkw : hasKeyword (lowerData msg.message) = false) :
    (ingest_whatsapp cfg db msg now).2.1 = none ∧
    (ingest_whatsapp cfg db msg now).1.lead_logs = db.lead_logs ∧
    (ingest_whatsapp cfg db msg now).1.leads.length = db.leads.length ∧
    ∀ (i : Nat) (l : Lead), db.leads[i]? = some l →
      (l.assigned_sales_whatsapp = some msg.from_number →
        (ingest_whatsapp cfg db msg now).1.leads[i]? =
          some { l with last_sales_reply_at := some msg.timestamp,
                        status := "In progress", updated_at := now }) ∧
      (l.assigned_sales_whatsapp ≠ some msg.from_number →
        (ingest_whatsapp cfg db msg now).1.leads[i]? = some l) := by
  have hmain : ingest_whatsapp cfg db msg now =
      (update_document db (fun l => l.assigned_sales_whatsapp == some msg.from_number)
        (fun l => { l with last_sales_reply_at := some msg.timestamp, status := "In progress" })
        now, none, []) := by
    simp [ingest_whatsapp, hkw]
  rw [hmain]
  refine ⟨rfl, rfl, by simp [update_document], ?_⟩
  intro i l hl
  constructor
  · intro hmatch
    simp [update_document, List.getElem?_map, hl, hmatch]
  · intro hne
    simp [update_document, List.getElem?_map, hl, hne]

/-- Witness for C4: the sample handler's keyword-free reply flips the
sample lead (matched by its handler number) to "In progress" with the
reply time recorded, appending no log. -/
theorem ingest_whatsapp_reply_frame_witness :
    hasKeyword (lowerData msgW2.message) = false ∧
    dbW.leads[0]? = some leadW ∧
    leadW.assigned_sales_whatsapp = some msgW2.from_number ∧
    ((ingest_whatsapp cfgW dbW msgW2 130).2.1 = none ∧
     (ingest_whatsapp cfgW dbW msgW2 130).1.lead_logs = dbW.lead_logs ∧
     (ingest_whatsapp cfgW dbW msgW2 130).1.leads[0]? =
       some { leadW with last_sales_reply_at := some msgW2.timestamp,
                         status := "In progress", updated_at := 130 }) :=
  ⟨by decide, by decide, by decide,
   (ingest_whatsapp_reply_frame cfgW dbW msgW2 130 (by decide)).1,
   (ingest_whatsapp_reply_frame cfgW dbW msgW2 130 (by decide)).2.1,
   ((ingest_whatsapp_reply_frame cfgW dbW msgW2 130 (by decide)).2.2.2 0 leadW (by decide)).1
     (by decide)⟩

end LeadEngine

namespace LeadEngine

/- ------------------------------------------------------------------ -/
/- C5, C6: the recurring follow-up scan                                -/
/- ------------------------------------------------------------------ -/

theorem pyOrStr_some_pyOrStr (a : Option String) (b : String) :
    pyOrStr (some (pyOrStr a b)) b = pyOrStr a b := by
  cases a with
  | none => by_cases hb : b = "" <;> simp [pyOrStr, hb]
  | some s => by_cases hs : s = "" <;> by_cases hb : b = "" <;> simp [pyOrStr, hs, hb]

/-- Unrolling the 24-hour loop: its net effect is one appended log entry
and one notification per stale lead, in order. -/
theorem follow_up_loop24_eq (cfg : Config) (now : Int) (db : DB) (ls : List Lead) :
    follow_up_loop24 cfg now db ls =
      ({ db with lead_logs := db.lead_logs ++ ls.map (fun l => followup24_log l now) },
       ls.map (notify24 cfg)) := by
  induction ls generalizing db with
  | nil => simp [follow_up_loop24]
  | cons a t ih =>
    have hval : (validOptStatus (some "New") && validStatus "New") = true := by decide
    simp [follow_up_loop24, _log_status_change, mkLeadLog, hval, ih, followup24_log]

/-- The scan never modifies the lead documents themselves (it only appends
log entries), so a condition that held this cycle still holds next cycle. -/
theorem follow_up_checks_leads (cfg : Config) (db : DB) (now : Int) :
    (follow_up_checks cfg db now).1.leads = db.leads := by
  simp [follow_up_checks, follow_up_loop24_eq]

theorem reminder15_mem (cfg : Config) (db : DB) (now : Int) (l : Lead)
    (hmem : l ∈ db.leads) (hstat : l.status = "New")
    (hreply : l.last_sales_reply_at = none) (hage : l.timestamp ≤ now - DELTA15)
    (hbatch : (db.leads.filter (fun x => x.status == "New")).length ≤ 5000) :
    reminder15 cfg l ∈ (follow_up_checks cfg db now).2 := by
  have htake := List.take_of_length_le hbatch
  have h1 : l ∈ db.leads.filter (fun x => x.status == "New") :=
    List.mem_filter.mpr ⟨hmem, by simp [hstat]⟩
  have h3 : l ∈ ((db.leads.filter (fun x => x.status == "New")).take 5000).filter
      (fun x => decide (x.timestamp ≤ now - DELTA15) && x.last_sales_reply_at.isNone) := by
    rw [htake]
    exact List.mem_filter.mpr ⟨h1, by simp [hage, hreply]⟩
  simp only [follow_up_checks]
  exact List.mem_append_left _ (List.mem_map_of_mem _ h3)

/-- Claim C5: a fetched lead in status "New" with no recorded reply and
`timestamp ≤ now - 15min` (boundary inclusive) gets the 15-minute reminder
on this cycle, addressed to its assigned handler (default-admin fallback);
the scan leaves the lead documents unchanged, and — there being no
de-duplication — the same reminder is emitted again on any later cycle. -/
theorem follow_up_15min_reminder (cfg : Config) (db : DB) (now : Int) (l : Lead)
    (hmem : l ∈ db.leads) (hstat : l.status = "New")
    (hreply : l.last_sales_reply_at = none)
    (hage : l.timestamp ≤ now - DELTA15)
    (hbatch : (db.leads.filter (fun x => x.status == "New")).length ≤ 5000) :
    reminder15 cfg l ∈ (follow_up_checks cfg db now).2 ∧
    (reminder15 cfg l).to_number = pyOrStr l.assigned_sales_whatsapp cfg.defaultAdmin ∧
    (follow_up_checks cfg db now).1.leads = db.leads ∧
    ∀ now', now ≤ now' →
      reminder15 cfg l ∈ (follow_up_checks cfg (follow_up_checks cfg db now).1 now').2 := by
  refine ⟨reminder15_mem cfg db now l hmem hstat hreply hage hbatch,
    pyOrStr_some_pyOrStr _ _, follow_up_checks_leads cfg db now, ?_⟩
  intro now' hnn
  have hage' : l.timestamp ≤ now' - DELTA15 := le_trans hage (by omega)
  apply reminder15_mem
  · rw [follow_up_checks_leads]; exact hmem
  · exact hstat
  · exact hreply
  · exact hage'
  · rw [follow_up_checks_leads]; exact hbatch

/-- Witness for C5: the sample lead (timestamp 100) is reminded at
`now = 200` and again one cycle later at `now = 205`. -/
theorem follow_up_15min_reminder_witness :
    leadW ∈ dbW.leads ∧ leadW.status = "New" ∧ leadW.last_sales_reply_at = none ∧
    leadW.timestamp ≤ 200 - DELTA15 ∧
    (dbW.leads.filter (fun x => x.status == "New")).length ≤ 5000 ∧
    reminder15 cfgW leadW ∈ (follow_up_checks cfgW dbW 200).2 ∧
    reminder15 cfgW leadW ∈ (follow_up_checks cfgW (follow_up_checks cfgW dbW 200).1 205).2 :=
  ⟨by decide, by decide, by decide, by decide, by decide,
   (follow_up_15min_reminder cfgW dbW 200 leadW (by decide) (by decide) (by decide)
     (by decide) (by decide)).1,
   (follow_up_15min_reminder cfgW dbW 200 leadW (by decide) (by decide) (by decide)
     (by decide) (by decide)).2.2.2 205 (by decide)⟩

/-- In a list whose keys are distinct, exactly one element carries the key
of a member. -/
theorem countP_key_eq_one {α β : Type} [DecidableEq β] (f : α → β) :
    ∀ xs : List α, (xs.map f).Nodup → ∀ x, x ∈ xs →
      xs.countP (fun y => f y == f x) = 1 := by
  intro xs
  induction xs with
  | nil => intro _ x hx; exact absurd hx (List.not_mem_nil x)
  | cons a t ih =>
    intro hnd x hx
    rw [List.map_cons, List.nodup_cons] at hnd
    rcases hnd with ⟨hna, hndt⟩
    rw [List.countP_cons]
    by_cases hax : f a = f x
    · have hpa : (f a == f x) = true := by simp [hax]
      have ht0 : t.countP (fun y => f y == f x) = 0 := by
        apply List.countP_eq_zero.mpr
        intro y hy
        simp only [beq_iff_eq]
        intro hyx
        have : f a ∈ List.map f t := by
          rw [hax, ← hyx]
          exact List.mem_map_of_mem f hy
        exact absurd this hna
      rw [ht0, hpa]
      simp
    · have hxt : x ∈ t := by
        rcases List.mem_cons.mp hx with rfl | h
        · exact absurd rfl hax
        · exact h
      have hpa : (f a == f x) = false := by simp [hax]
      rw [ih hndt x hxt, hpa]
      simp

theorem follow_texts_ne (d : String) :
    ("Follow-up task: Lead " ++ d ++ " still New after 24h.") ≠
    ("Reminder: Lead " ++ d ++ " has no reply after 15 min.") := by
  intro h
  have h2 := congrArg (fun s => s.data.head?) h
  simp only [String.data_append] at h2
  simp only [List.cons_append, List.head?_cons] at h2
  exact absurd h2 (by decide)

theorem follow_up_24h_step (cfg : Config) (db : DB) (now : Int) (l : Lead)
    (hmem : l ∈ db.leads) (hstat : l.status = "New")
    (hage : l.timestamp ≤ now - DAY_MIN)
    (hbatch : (db.leads.filter (fun x => x.status == "New")).length ≤ 5000)
    (hids : (db.leads.map (fun x => x._id)).Nodup) :
    (follow_up_checks cfg db now).1.lead_logs.countP (auto24_entry l) =
      db.lead_logs.countP (auto24_entry l) + 1 ∧
    notify24 cfg l ∈ (follow_up_checks cfg db now).2 := by
  have htake := List.take_of_length_le hbatch
  have h1 : l ∈ db.leads.filter (fun x => x.status == "New") :=
    List.mem_filter.mpr ⟨hmem, by simp [hstat]⟩
  have hstale : l ∈ ((db.leads.filter (fun x => x.status == "New")).take 5000).filter
      (fun x => decide (x.timestamp ≤ now - DAY_MIN) && x.status == "New") := by
    rw [htake]
    exact List.mem_filter.mpr ⟨h1, by simp [hage, hstat]⟩
  have hsub : (((db.leads.filter (fun x => x.status == "New")).take 5000).filter
      (fun x => decide (x.timestamp ≤ now - DAY_MIN) && x.status == "New")).Sublist db.leads := by
    rw [htake]
    exact (List.filter_sublist _).trans (List.filter_sublist _)
  have hnd := List.Nodup.sublist (hsub.map (fun x => x._id)) hids
  have hcount := countP_key_eq_one (fun x => x._id) _ hnd l hstale
  have hfun : (auto24_entry l ∘ fun x => followup24_log x now) =
      (fun y => y._id == l._id) := by
    funext y
    simp [auto24_entry, followup24_log]
  constructor
  · simp only [follow_up_checks, follow_up_loop24_eq]
    rw [List.countP_append, List.countP_map, hfun, hcount]
  · simp only [follow_up_checks, follow_up_loop24_eq]
    exact List.mem_append_right _ (List.mem_map_of_mem _ hstale)

/-- Claim C6: a fetched lead still "New" with `timestamp ≤ now - 24h`
causes, on each scan cycle, exactly one appended informational New→New log
entry with the fixed auto-follow-up note, plus a follow-up notification
distinct from the 15-minute reminder; the lead documents are untouched, so
— with no de-duplication — a later cycle appends one more entry and
notifies again. -/
theorem follow_up_24h_task (cfg : Config) (db : DB) (now : Int) (l : Lead)
    (hmem : l ∈ db.leads) (hstat : l.status = "New")
    (hage : l.timestamp ≤ now - DAY_MIN)
    (hbatch : (db.leads.filter (fun x => x.status == "New")).length ≤ 5000)
    (hids : (db.leads.map (fun x => x._id)).Nodup) :
    ((follow_up_checks cfg db now).1.lead_logs.countP (auto24_entry l) =
      db.lead_logs.countP (auto24_entry l) + 1 ∧
     notify24 cfg l ∈ (follow_up_checks cfg db now).2) ∧
    notify24 cfg l ≠ reminder15 cfg l ∧
    (follow_up_checks cfg db now).1.leads = db.leads ∧
    ∀ now', now ≤ now' →
      (follow_up_checks cfg (follow_up_checks cfg db now).1 now').1.lead_logs.countP
          (auto24_entry l) =
        db.lead_logs.countP (auto24_entry l) + 2 := by
  refine ⟨follow_up_24h_step cfg db now l hmem hstat hage hbatch hids, ?_, ?_, ?_⟩
  · intro h
    exact follow_texts_ne (display_name l) (congrArg Notification.text h)
  · exact follow_up_checks_leads cfg db now
  · intro now' hnn
    have hage' : l.timestamp ≤ now' - DAY_MIN := le_trans hage (by omega)
    have hstep2 := follow_up_24h_step cfg (follow_up_checks cfg db now).1 now' l
      (by rw [follow_up_checks_leads]; exact hmem) hstat hage'
      (by rw [follow_up_checks_leads]; exact hbatch)
      (by rw [follow_up_checks_leads]; exact hids)
    rw [hstep2.1, (follow_up_24h_step cfg db now l hmem hstat hage hbatch hids).1]

/-- Witness for C6: the sample lead (timestamp 100) at `now = 2000` gets
exactly one auto-follow-up log entry and the distinct notification, and a
second cycle at `now = 2005` brings the count to two. -/
theorem follow_up_24h_task_witness :
    leadW ∈ dbW.leads ∧ leadW.status = "New" ∧ leadW.timestamp ≤ 2000 - DAY_MIN ∧
    (dbW.leads.filter (fun x => x.status == "New")).length ≤ 5000 ∧
    (dbW.leads.map (fun x => x._id)).Nodup ∧
    ((follow_up_checks cfgW dbW 2000).1.lead_logs.countP (auto24_entry leadW) =
      dbW.lead_logs.countP (auto24_entry leadW) + 1 ∧
     notify24 cfgW leadW ∈ (follow_up_checks cfgW dbW 2000).2) ∧
    notify24 cfgW leadW ≠ reminder15 cfgW leadW ∧
    (follow_up_checks cfgW (follow_up_checks cfgW dbW 2000).1 2005).1.lead_logs.countP
        (auto24_entry leadW) =
      dbW.lead_logs.countP (auto24_entry leadW) + 2 :=
  ⟨by decide, by decide, by decide, by decide, by decide,
   (follow_up_24h_task cfgW dbW 2000 leadW (by decide) (by decide) (by decide)
     (by decide) (by decide)).1,
   (follow_up_24h_task cfgW dbW 2000 leadW (by decide) (by decide) (by decide)
     (by decide) (by decide)).2.1,
   (follow_up_24h_task cfgW dbW 2000 leadW (by decide) (by decide) (by decide)
     (by decide) (by decide)).2.2.2 2005 (by decide)⟩

end LeadEngine

namespace LeadEngine

/- ------------------------------------------------------------------ -/
/- C7: the daily summary                                               -/
/- ------------------------------------------------------------------ -/

theorem lexLe_trans : ∀ as bs cs : List Char,
    lexLe as bs = true → lexLe bs cs = true → lexLe as cs = true := by
  intro as
  induction as with
  | nil => intro bs cs _ _; rfl
  | cons a at' ih =>
    intro bs cs hab hbc
    cases bs with
    | nil => simp [lexLe] at hab
    | cons b bt =>
      cases cs with
      | nil => simp [lexLe] at hbc
      | cons c ct =>
        simp only [lexLe] at hab hbc ⊢
        by_cases h1 : a = b
        · subst h1
          simp only [if_pos rfl] at hab
          by_cases h2 : a = c
          · subst h2
            simp only [if_pos rfl] at hbc ⊢
            exact ih bt ct hab hbc
          · simp only [if_neg h2] at hbc ⊢
            exact hbc
        · simp only [if_neg h1] at hab
          have hab' : a < b := of_decide_eq_true hab
          by_cases h2 : b = c
          · subst h2
            simp only [if_neg h1]
            exact hab
          · simp only [if_neg h2] at hbc
            have hbc' : b < c := of_decide_eq_true hbc
            have hac : a < c := lt_trans hab' hbc'
            simp only [if_neg (ne_of_lt hac)]
            exact decide_eq_true hac

theorem lexLe_total : ∀ as bs : List Char, (lexLe as bs || lexLe bs as) = true := by
  intro as
  induction as with
  | nil => intro bs; simp [lexLe]
  | cons a at' ih =>
    intro bs
    cases bs with
    | nil => simp [lexLe]
    | cons b bt =>
      simp only [lexLe]
      by_cases h : a = b
      · subst h
        simp only [if_pos rfl]
        exact ih bt
      · have h' : b ≠ a := Ne.symm h
        simp only [if_neg h, if_neg h']
        rcases lt_or_gt_of_ne h with hlt | hgt
        · simp [hlt]
        · simp [hgt]

theorem itemLe_trans (a b c : String × Nat) :
    itemLe a b = true → itemLe b c = true → itemLe a c = true :=
  lexLe_trans _ _ _

theorem itemLe_total (a b : String × Nat) : (itemLe a b || itemLe b a) = true :=
  lexLe_total _ _

theorem lexLe_not_lex : ∀ as bs : List Char, lexLe as bs = true →
    ¬ List.Lex (fun a b : Char => a < b) bs as := by
  intro as
  induction as with
  | nil =>
    intro bs h hlt
    cases hlt
  | cons a at' ih =>
    intro bs h hlt
    cases bs with
    | nil => simp [lexLe] at h
    | cons b bt =>
      simp only [lexLe] at h
      cases hlt with
      | cons hlex =>
        simp only [if_pos rfl] at h
        exact ih bt h hlex
      | rel hr =>
        by_cases h1 : a = b
        · subst h1
          exact absurd hr (lt_irrefl a)
        · simp only [if_neg h1] at h
          exact absurd hr (lt_asymm (of_decide_eq_true h))

/-- `lexLe` on the character lists implies the library order on strings. -/
theorem lexLe_imp_le (s t : String) (h : lexLe s.data t.data = true) : s ≤ t := by
  apply not_lt.mp
  intro hlt
  exact lexLe_not_lex s.data t.data h (String.lt_iff_toList_lt.mp hlt)

theorem insertItem_perm (x : String × Nat) :
    ∀ l : List (String × Nat), (insertItem x l).Perm (x :: l)
  | [] => List.Perm.refl _
  | y :: ys => by
    rw [insertItem]
    by_cases h : itemLe x y = true
    · rw [if_pos h]
    · rw [if_neg h]
      exact ((insertItem_perm x ys).cons y).trans (List.Perm.swap x y ys)

theorem sortedItems_perm : ∀ l : List (String × Nat), (sortedItems l).Perm l
  | [] => List.Perm.refl _
  | x :: xs => (insertItem_perm x (sortedItems xs)).trans ((sortedItems_perm xs).cons x)

theorem insertItem_pairwise (x : String × Nat) :
    ∀ l : List (String × Nat), l.Pairwise (fun p q => itemLe p q = true) →
      (insertItem x l).Pairwise (fun p q => itemLe p q = true)
  | [], _ => by simp [insertItem]
  | y :: ys, h => by
    rcases List.pairwise_cons.mp h with ⟨hy, hys⟩
    rw [insertItem]
    by_cases hxy : itemLe x y = true
    · rw [if_pos hxy]
      apply List.pairwise_cons.mpr
      refine ⟨?_, h⟩
      intro z hz
      rcases List.mem_cons.mp hz with rfl | hz'
      · exact hxy
      · exact itemLe_trans x y z hxy (hy z hz')
    · rw [if_neg hxy]
      have hyx : itemLe y x = true := by
        have htot := itemLe_total x y
        rw [Bool.or_eq_true] at htot
        rcases htot with h1 | h2
        · exact absurd h1 hxy
        · exact h2
      apply List.pairwise_cons.mpr
      refine ⟨?_, insertItem_pairwise x ys hys⟩
      intro z hz
      rcases List.mem_cons.mp ((insertItem_perm x ys).mem_iff.mp hz) with rfl | hz'
      · exact hyx
      · exact hy z hz'

theorem sortedItems_pairwise :
    ∀ l : List (String × Nat), (sortedItems l).Pairwise (fun p q => itemLe p q = true)
  | [] => List.Pairwise.nil
  | x :: xs => insertItem_pairwise x (sortedItems xs) (sortedItems_pairwise xs)

set_option maxRecDepth 100000 in
/-- Claim C7: over the snapshot {A: New, B: In progress, C: Won} with zero
logs the daily summary reports total = 3, the four fixed status buckets as
New: 1, In progress: 1, Won: 1, Lost: 0, and conversion = 0, sent to the
default admin; and, on every snapshot, the report is a pure function of
the store (determinism) whose by-area and by-job tallies are listed in
lexicographic key order (a permutation of the computed tallies, nothing
dropped or added). -/
theorem daily_summary_report :
    (daily_summary_job cfgW db7 200 =
      { to_number := "+60123456789",
        text := "PK Daily Lead Summary\nTotal leads: 3\nStatus → New: 1, In progress: 1, Won: 1, Lost: 0\nBy Area: Unknown: 3\nBy Job: Unknown: 3\nConversion New→In progress: 0\nOverdue follow-ups (24h): 0" }) ∧
    ∀ db : DB,
      ((sortedItems (by_area_of (db.leads.take 10000))).Pairwise (fun p q => p.1 ≤ q.1) ∧
       (sortedItems (by_area_of (db.leads.take 10000))).Perm (by_area_of (db.leads.take 10000))) ∧
      ((sortedItems (by_job_of (db.leads.take 10000))).Pairwise (fun p q => p.1 ≤ q.1) ∧
       (sortedItems (by_job_of (db.leads.take 10000))).Perm (by_job_of (db.leads.take 10000))) := by
  constructor
  · decide
  · intro db
    refine ⟨⟨?_, sortedItems_perm _⟩, ⟨?_, sortedItems_perm _⟩⟩ <;>
      exact (sortedItems_pairwise _).imp (fun h => lexLe_imp_le _ _ h)

end LeadEngine
